import Mathlib

/-!
Verification development for the Keithley 6220 differential-conductance
controller (files `cs_6220_core_func.py` and `pyqt_6220_controller.py`).

The device transport is modelled by an oracle assigning a raw response
(`Option String`, `none` standing for a transport-level exception) to each
query mnemonic.  Python floats are modelled by exact rationals, and the
stateful `Keithley6220` / `Keithley6220Qt` objects by an explicit record
`DevSt` threaded through each operation.  Every operation additionally
returns the list of device interactions (writes and queries) it issued,
so that ordering and short-circuit properties can be stated as facts
about these traces.
-/

namespace K6220

/-- SCPI write commands issued by the modelled code paths. -/
inductive Cmd where
  | dconStar (q : ℚ)
  | dconStop (q : ℚ)
  | dconStep (q : ℚ)
  | dconDelta (q : ℚ)
  | dconDelay (q : ℚ)
  | tracPoin (n : ℤ)
  | dconArm
  | sweAbort
  deriving DecidableEq, Repr

/-- SCPI queries issued by the modelled code paths. -/
inductive Qry where
  | dconStarQ
  | dconStopQ
  | dconStepQ
  | dconDeltaQ
  | dconDelayQ
  | nvPresentQ
  | interlockQ
  | armQ
  | tracPoinQ
  deriving DecidableEq, Repr

/-- One device interaction: a write or a query. -/
inductive IOEvent where
  | write (c : Cmd)
  | query (q : Qry)
  deriving DecidableEq, Repr

/-- The device side of the transport: a raw response for each query;
`none` models a transport exception while reading the answer. -/
def Oracle : Type := Qry → Option String

/-- Messages carried by the `arming_signal` / `arm_status_signal`
PyQt signals, abstracted from the literal strings. -/
inductive ArmMsg where
  | initiated
  | alreadyInProgress
  | preconditionsFailed
  | deviceArmed
  | timedOut
  deriving DecidableEq, Repr

/-- Signals emitted by the Qt controller during arming. -/
inductive Sig where
  | arming (ok : Bool) (m : ArmMsg)
  | armStatus (b : Bool)
  deriving DecidableEq, Repr

/-- The mutable state of the `Keithley6220` / `Keithley6220Qt` object:
the stored sweep parameters, derived plan values, arming flags, the
QTimer bookkeeping of the Qt subclass, and whether the VISA handle
(`self.instrument`) is present. -/
structure DevSt where
  start : Option ℚ := none
  stop : Option ℚ := none
  step : Option ℚ := none
  delta : Option ℚ := none
  delay : Option ℚ := none
  total_points : Option ℤ := none
  estimated_time : Option ℚ := none
  is_armed : Bool := false
  under_arming : Bool := false
  elapsed_time : ℚ := 0
  arming_timeout : ℚ := 20
  timer_active : Bool := false
  instrument : Bool := false
  deriving DecidableEq, Repr

/-- Fresh object as produced by `Keithley6220.__init__`. -/
def initSt : DevSt := {}

/- ### String helpers -/

/-- Python `str.strip()`: remove whitespace from both ends. -/
def stripChars (cs : List Char) : List Char :=
  ((cs.dropWhile Char.isWhitespace).reverse.dropWhile Char.isWhitespace).reverse

/-- Greedily consume decimal digits, returning their value, their count
and the rest of the input. -/
def takeDigits : List Char → ℕ × ℕ × List Char
  | [] => (0, 0, [])
  | c :: cs =>
    if c.isDigit then
      let (v, n, r) := takeDigits cs
      ((c.toNat - 48) * 10 ^ n + v, n + 1, r)
    else (0, 0, c :: cs)

/-- Consume an optional leading sign; returns whether it was `-`. -/
def stripSign : List Char → Bool × List Char
  | '-' :: r => (true, r)
  | '+' :: r => (false, r)
  | r => (false, r)

/-- Model of Python `float(s)` on the textual forms relevant here
(`[ws][sign]digits[.digits][(e|E)[sign]digits][ws]`); `none` models a
raised `ValueError`. -/
def float_of (s : String) : Option ℚ :=
  let cs := stripChars s.data
  let (neg, cs1) := stripSign cs
  let (ip, n1, cs2) := takeDigits cs1
  let (fp, n2, cs3) :=
    match cs2 with
    | '.' :: r => takeDigits r
    | r => (0, 0, r)
  if n1 + n2 = 0 then none
  else
    let mant : ℚ := (ip : ℚ) + (fp : ℚ) / (10 : ℚ) ^ n2
    let sm : ℚ := if neg then -mant else mant
    match cs3 with
    | [] => some sm
    | e :: r =>
      if e = 'e' ∨ e = 'E' then
        let (eneg, r1) := stripSign r
        let (ev, n3, r2) := takeDigits r1
        if n3 = 0 ∨ r2 ≠ [] then none
        else some (if eneg then sm / (10 : ℚ) ^ ev else sm * (10 : ℚ) ^ ev)
      else none

/-- Python `float(x)` where `x` may be `None` (a `TypeError`) or a
string (possibly a `ValueError`); `none` models the raised exception. -/
def float_opt (x : Option String) : Option ℚ :=
  x.bind float_of

/- ### Device session: `query_6220` / `send_command_to_6220` -/

/-- The response post-processing of `Keithley6220.query_6220`: strip the
raw line; an empty line yields `None`; a line that contains a comma and
starts with a sign is treated as a SCPI error frame and yields `None`
(both the parsed-error and the malformed-error branch return `None`);
otherwise the stripped response is returned.  `none` in, `none` out
models the exception handler. -/
def decode_response (raw : Option String) : Option String :=
  match raw with
  | none => none
  | some s =>
    let t := stripChars s.data
    if t = [] then none
    else if t.contains ',' && (t.head? == some '-' || t.head? == some '+') then none
    else some (String.mk t)

/-- Possible outcomes of `send_command_to_6220`. `caughtNullRef` is the
`except` branch catching the `AttributeError` raised by writing through
a `None` handle; `notConnectedRefusal` exists only for comparison with
the specification's demanded behaviour and is never produced by the
code model. -/
inductive SendOutcome where
  | sent
  | caughtNullRef
  | notConnectedRefusal
  deriving DecidableEq, Repr

/-- `Keithley6220.send_command_to_6220`: fire-and-forget write.  With a
live handle the command is issued; with a `None` handle the write raises
`AttributeError`, which the `except` block catches and logs, so nothing
reaches the device. -/
def send_command_to_6220 (st : DevSt) (c : Cmd) : SendOutcome × List IOEvent :=
  match st.instrument with
  | true => (.sent, [.write c])
  | false => (.caughtNullRef, [])

/-- Modelled from the spec: "`disconnect()` followed by any `send/query`
must fail with a clear \"not connected\" condition rather than a
null-reference fault."  The specified behaviour checks the handle and
refuses with a dedicated not-connected condition. -/
def send_spec_behavior (st : DevSt) (c : Cmd) : SendOutcome × List IOEvent :=
  match st.instrument with
  | true => (.sent, [.write c])
  | false => (.notConnectedRefusal, [])

/-- `Keithley6220.query_6220` as a whole: with a live handle the query
is issued and the raw response decoded; with a `None` handle the
attribute access raises, the handler catches it and returns `None`
without any device traffic. -/
def query_6220 (st : DevSt) (o : Oracle) (q : Qry) : Option String × List IOEvent :=
  match st.instrument with
  | true => (decode_response (o q), [.query q])
  | false => (none, [])

/-- `Keithley6220.disconnect`: release the handle if held, else no-op. -/
def disconnect (st : DevSt) : DevSt :=
  match st.instrument with
  | true => { st with instrument := false }
  | false => st

/- ### Parameter validation and planning -/

/-- `Keithley6220.validate_param`: the range test (the Python raises
`ValueError` when it fails; here the boolean is used by the caller's
error branch). -/
def validate_param (v lo hi : ℚ) : Bool :=
  decide (lo ≤ v ∧ v ≤ hi)

/-- Python `round` to an integer, half-to-even (banker's rounding). -/
def roundHalfEven (q : ℚ) : ℤ :=
  let f := ⌊q⌋
  let r := q - (f : ℚ)
  if r < 1 / 2 then f
  else if 1 / 2 < r then f + 1
  else if f % 2 = 0 then f else f + 1

/-- Python `round(q, 6)`: round to six decimal places, half-to-even. -/
def round6 (q : ℚ) : ℚ :=
  (roundHalfEven (q * 1000000) : ℚ) / 1000000

/-- The point count computed by `set_differential_conductance_params`:
`math.ceil(round(abs(stop-start)/step, 6)) + 1`. -/
def computed_points (start stop step : ℚ) : ℤ :=
  ⌈round6 (|stop - start| / step)⌉ + 1

/-- Which range rule a validation failure names. -/
inductive VField where
  | start
  | stop
  | step
  | delay
  | delta
  | stopNotGreater
  deriving DecidableEq, Repr

/-- Failure modes of `set_differential_conductance_params` (all raised
as `ValueError` and reported through the error return). -/
inductive CfgErr where
  | validation (f : VField)
  | capacity (n : ℤ)
  deriving DecidableEq, Repr

/-- Return value of `set_differential_conductance_params`: on success the
pair `(total_points, estimated_time)`, otherwise the error. -/
inductive CfgRet where
  | ok (points : ℤ) (eta : ℚ)
  | err (e : CfgErr)
  deriving DecidableEq, Repr

/-- `Keithley6220.set_differential_conductance_params`.  Validates the
five parameters in source order, then `stop > start`, computes and
stores `total_points`, enforces the 65530-point capacity limit, sets and
soft-verifies the buffer size, computes `estimated_time`, pushes the
five sweep parameters and stores them.  Returns the updated state, the
trace of device interactions, and the result. -/
def set_differential_conductance_params (st : DevSt) (o : Oracle)
    (start stop step delay delta : ℚ) : DevSt × List IOEvent × CfgRet :=
  if ¬ validate_param start (-(105 / 1000)) (105 / 1000) then
    (st, [], .err (.validation .start))
  else if ¬ validate_param stop (-(105 / 1000)) (105 / 1000) then
    (st, [], .err (.validation .stop))
  else if ¬ validate_param step (1 / 10 ^ 12) (105 / 1000) then
    (st, [], .err (.validation .step))
  else if ¬ validate_param delay (1 / 1000) (9999999 / 1000) then
    (st, [], .err (.validation .delay))
  else if ¬ validate_param delta (1 / 10 ^ 5) (105 / 1000) then
    (st, [], .err (.validation .delta))
  else if stop ≤ start then
    (st, [], .err (.validation .stopNotGreater))
  else
    let tp := computed_points start stop step
    let st1 := { st with total_points := some tp }
    if tp > 65530 then
      (st1, [], .err (.capacity tp))
    else
      let tb := (send_command_to_6220 st1 (.tracPoin tp)).2
      let tq := (query_6220 st1 o .tracPoinQ).2
      let eta : ℚ := (tp : ℚ) * delay
      let st2 := { st1 with estimated_time := some eta }
      let t1 := (send_command_to_6220 st2 (.dconStar start)).2
      let t2 := (send_command_to_6220 st2 (.dconStop stop)).2
      let t3 := (send_command_to_6220 st2 (.dconStep step)).2
      let t4 := (send_command_to_6220 st2 (.dconDelta delta)).2
      let t5 := (send_command_to_6220 st2 (.dconDelay delay)).2
      let st3 := { st2 with
        start := some start, stop := some stop, step := some step,
        delta := some delta, delay := some delay }
      (st3, tb ++ tq ++ t1 ++ t2 ++ t3 ++ t4 ++ t5, .ok tp eta)

/- ### Parameter verification and arming preconditions -/

/-- The floating-point comparison `queried == self.field` of
`verify_params`: comparing a float against a `None` field is `False`. -/
def float_eq_opt (q : ℚ) (x : Option ℚ) : Bool :=
  match x with
  | some v => decide (q = v)
  | none => false

/-- `Keithley6220.verify_params`: query the five sweep parameters in
source order and compare them against the stored values.  A query whose
result cannot pass Python `float()` (a `None` response or non-numeric
text) raises inside the `try`, so the remaining queries are not issued
and the handler returns `False`. -/
def verify_params (st : DevSt) (o : Oracle) : Bool × List IOEvent :=
  let t1 := (query_6220 st o .dconStarQ).2
  match float_opt (query_6220 st o .dconStarQ).1 with
  | none => (false, t1)
  | some qstart =>
    let t2 := (query_6220 st o .dconStopQ).2
    match float_opt (query_6220 st o .dconStopQ).1 with
    | none => (false, t1 ++ t2)
    | some qstop =>
      let t3 := (query_6220 st o .dconStepQ).2
      match float_opt (query_6220 st o .dconStepQ).1 with
      | none => (false, t1 ++ t2 ++ t3)
      | some qstep =>
        let t4 := (query_6220 st o .dconDeltaQ).2
        match float_opt (query_6220 st o .dconDeltaQ).1 with
        | none => (false, t1 ++ t2 ++ t3 ++ t4)
        | some qdelta =>
          let t5 := (query_6220 st o .dconDelayQ).2
          match float_opt (query_6220 st o .dconDelayQ).1 with
          | none => (false, t1 ++ t2 ++ t3 ++ t4 ++ t5)
          | some qdelay =>
            (float_eq_opt qstart st.start && float_eq_opt qstop st.stop &&
              float_eq_opt qstep st.step && float_eq_opt qdelta st.delta &&
              float_eq_opt qdelay st.delay,
             t1 ++ t2 ++ t3 ++ t4 ++ t5)

/-- `Keithley6220.check_2182a_presence`: the response equals `"1"`. -/
def check_2182a_presence (st : DevSt) (o : Oracle) : Bool × List IOEvent :=
  ((query_6220 st o .nvPresentQ).1 == some "1", (query_6220 st o .nvPresentQ).2)

/-- `Keithley6220.check_interlock_status`: the response equals `"1"`. -/
def check_interlock_status (st : DevSt) (o : Oracle) : Bool × List IOEvent :=
  ((query_6220 st o .interlockQ).1 == some "1", (query_6220 st o .interlockQ).2)

/-- `Keithley6220.check_arm_status` on one raw response: `"1"` means
armed, `"0"` means not armed, and any other (or failed) response falls
off the end of the function, i.e. returns `None`. -/
def check_arm_status (st : DevSt) (raw : Option String) : Option Bool × List IOEvent :=
  let r : Option String := match st.instrument with
    | true => decode_response raw
    | false => none
  let t : List IOEvent := match st.instrument with
    | true => [.query .armQ]
    | false => []
  (if r = some "1" then some true else if r = some "0" then some false else none, t)

/-- `Keithley6220.arm_device`: verify parameters, check 2182A presence,
check the interlock, and only then issue `SOUR:DCON:ARM`; the first
failing check returns `False` at once. -/
def arm_device (st : DevSt) (o : Oracle) : Bool × List IOEvent :=
  let tv := (verify_params st o).2
  if (verify_params st o).1 then
    let tp := tv ++ (check_2182a_presence st o).2
    if (check_2182a_presence st o).1 then
      let ti := tp ++ (check_interlock_status st o).2
      if (check_interlock_status st o).1 then
        (true, ti ++ (send_command_to_6220 st .dconArm).2)
      else (false, ti)
    else (false, tp)
  else (false, tv)

/- ### The Qt controller: arm entry point and the polling timer -/

/-- `Keithley6220Qt.arm_device`: reject a second arm request while one
is under way; otherwise run the core arming sequence and, on success,
set the `under_arming` flag and start the monitoring timer
(`monitor_arming_status` with the default 20 s timeout and 1 s tick). -/
def qt_arm_device (st : DevSt) (o : Oracle) : DevSt × List IOEvent × List Sig :=
  if st.under_arming then
    (st, [], [.arming false .alreadyInProgress])
  else
    let tr := (arm_device st o).2
    if (arm_device st o).1 then
      let st1 := { st with
        under_arming := true
        elapsed_time := 0
        arming_timeout := 20
        timer_active := true }
      (st1, tr, [.arming true .initiated])
    else
      (st, tr, [.arming false .preconditionsFailed])

/-- `Keithley6220Qt._check_arming_progress`, one timer tick: query the
arm status; a truthy result (`"1"`) records the armed state and stops
the timer; anything falsy (`"0"`, an unexpected response, or a failed
query) accrues one second of elapsed time and stops with a timeout
failure once `elapsed_time >= arming_timeout`. -/
def check_arming_progress (st : DevSt) (raw : Option String) :
    DevSt × List IOEvent × List Sig :=
  let t := (check_arm_status st raw).2
  if (check_arm_status st raw).1 = some true then
    ({ st with under_arming := false, is_armed := true, timer_active := false }, t,
     [.arming true .deviceArmed, .armStatus true])
  else
    let e := st.elapsed_time + 1
    if st.arming_timeout ≤ e then
      ({ st with elapsed_time := e, under_arming := false, timer_active := false }, t,
       [.arming false .timedOut])
    else
      ({ st with elapsed_time := e }, t, [])

/-- The QTimer's repeated invocation of `_check_arming_progress`: as
long as the timer is active, each scheduled tick consumes the next raw
device response; once the timer is stopped no further tick runs (and so
no further `SOUR:DCON:ARM?` query is issued). -/
def run_arming_monitor (st : DevSt) : List (Option String) →
    DevSt × List IOEvent × List Sig
  | [] => (st, [], [])
  | r :: rest =>
    match st.timer_active with
    | false => (st, [], [])
    | true =>
      let (st1, t, sg) := check_arming_progress st r
      let (st2, tr, sgs) := run_arming_monitor st1 rest
      (st2, t ++ tr, sg ++ sgs)

/- ### Measurement data parsing (`parse_iv_data` / `retrieve_iv_data`) -/

/-- Split a character list on a delimiter character, like Python
`str.split`. -/
def splitHash : List Char → List (List Char)
  | [] => [[]]
  | c :: cs =>
    if c = '#' then [] :: splitHash cs
    else
      match splitHash cs with
      | [] => [[c]]
      | h :: t => (c :: h) :: t

/-- One attempt of the regex `[-+]?\d+\.\d+E[-+]?\d+` at the head of
the input: optional sign, digits, a dot, digits, a literal `E`,
optional sign, digits.  Each `\d+` is greedy, and since every following
literal is a non-digit no backtracking into it can succeed, so this
deterministic reading coincides with the regex.  Returns the numeric
value and the remaining input. -/
def matchSci (cs : List Char) : Option (ℚ × List Char) :=
  let (neg, cs1) := stripSign cs
  let (ip, n1, cs2) := takeDigits cs1
  if n1 = 0 then none
  else
    match cs2 with
    | '.' :: cs3 =>
      let (fp, n2, cs4) := takeDigits cs3
      if n2 = 0 then none
      else
        match cs4 with
        | 'E' :: cs5 =>
          let (eneg, cs6) := stripSign cs5
          let (ev, n3, cs7) := takeDigits cs6
          if n3 = 0 then none
          else
            let mant : ℚ := (ip : ℚ) + (fp : ℚ) / (10 : ℚ) ^ n2
            let sm : ℚ := if neg then -mant else mant
            some (if eneg then sm / (10 : ℚ) ^ ev else sm * (10 : ℚ) ^ ev, cs7)
        | _ => none
    | _ => none

/-- `re.findall(r"([-+]?\d+\.\d+E[-+]?\d+)<suffix>", entry)[0]`: the
leftmost occurrence of the scientific-notation number immediately
followed by the literal suffix (`VDC` or `ADC`). -/
def findNum (suffix : List Char) : List Char → Option ℚ
  | [] => none
  | c :: cs =>
    match matchSci (c :: cs) with
    | some (v, rem) =>
      if suffix.isPrefixOf rem then some v else findNum suffix cs
    | none => findNum suffix cs

/-- The per-chunk loop of `parse_iv_data`: a chunk contributes one
reading to each sequence only when it has both a `VDC` and an `ADC`
match; otherwise it is skipped. -/
def parse_chunks : List (List Char) → List ℚ × List ℚ
  | [] => ([], [])
  | e :: rest =>
    match findNum ['V', 'D', 'C'] e, findNum ['A', 'D', 'C'] e with
    | some v, some c =>
      (c :: (parse_chunks rest).1, v :: (parse_chunks rest).2)
    | _, _ => parse_chunks rest

/-- `Keithley6220.parse_iv_data`: split the payload on `#` and extract
the current (`ADC`) and voltage (`VDC`) values chunk by chunk. -/
def parse_iv_data (raw : String) : List ℚ × List ℚ :=
  parse_chunks (splitHash raw.data)

/-- Outcome of `Keithley6220Qt.retrieve_iv_data`, with the two error
signals it can emit. -/
inductive RetrieveRes where
  | ok (currents voltages : List ℚ)
  | errRetrieveFailed
  | errParseFailed
  deriving DecidableEq, Repr

/-- `Keithley6220Qt.retrieve_iv_data`: a falsy raw payload (`None` from
a failed `TRAC:DATA?` transfer, or an empty string) reports a retrieval
failure; a payload parsing to an empty current or voltage sequence
reports a parse failure (the empty-data error); otherwise both
sequences are stored and the data-ready signal fires. -/
def retrieve_iv_data (raw : Option String) : RetrieveRes :=
  match raw with
  | none => .errRetrieveFailed
  | some s =>
    if s = "" then .errRetrieveFailed
    else if (parse_iv_data s).1.length = 0 ∨ (parse_iv_data s).2.length = 0 then
      .errParseFailed
    else .ok (parse_iv_data s).1 (parse_iv_data s).2

/- ### Concrete fixtures used in witnesses and counterexamples -/

/-- A connected session holding the sweep plan `(0, 0.01, 0.001)` with
delay `0.002` and delta `1e-5`, as left by a successful `configure`. -/
def stGood : DevSt :=
  { initSt with
    instrument := true
    start := some 0
    stop := some (1 / 100)
    step := some (1 / 1000)
    delta := some (1 / 100000)
    delay := some (1 / 500) }

/-- A device oracle echoing exactly the stored plan of `stGood` and
reporting the 2182A present and the interlock closed. -/
def oGood : Oracle := fun q =>
  match q with
  | .dconStarQ => some "0"
  | .dconStopQ => some "0.01"
  | .dconStepQ => some "0.001"
  | .dconDeltaQ => some "1e-05"
  | .dconDelayQ => some "0.002"
  | .nvPresentQ => some "1"
  | .interlockQ => some "1"
  | _ => some "0"

/-- A device oracle whose step query comes back as non-numeric text
while everything else is healthy. -/
def oBadStep : Oracle := fun q =>
  match q with
  | .dconStarQ => some "0"
  | .dconStopQ => some "0.01"
  | .dconStepQ => some "oops"
  | .dconDeltaQ => some "1e-05"
  | .dconDelayQ => some "0.002"
  | .nvPresentQ => some "1"
  | .interlockQ => some "1"
  | _ => some "0"

/-- A connected session in the middle of an arming poll (the state left
by a successful `arm_device` call in the Qt controller). -/
def armingSt : DevSt :=
  { initSt with
    instrument := true
    under_arming := true
    timer_active := true }

/-- A session holding the plan of a previous successful `configure`
with 11 points. -/
def stPlanned : DevSt :=
  { stGood with
    total_points := some 11
    estimated_time := some (11 / 500) }

/-!
## Theorems

The rational operations of Batteries are `@[irreducible]`, which blocks
kernel evaluation; concrete runs of the model are evaluated with them
made semireducible locally.
-/

section ClaimProofs

attribute [local semireducible] Rat.add Rat.mul Rat.inv Rat.sub

/-- The only interaction a `query_6220` call can put on the wire is its
own query. -/
lemma mem_query_6220_trace {st : DevSt} {o : Oracle} {q : Qry} {e : IOEvent}
    (he : e ∈ (query_6220 st o q).2) : e = .query q := by
  cases hi : st.instrument
  · simp [query_6220, hi] at he
  · simp [query_6220, hi] at he
    exact he

/-- The trace of a `query_6220` call is contained in its own query. -/
lemma query_6220_trace_sub (st : DevSt) (o : Oracle) (q : Qry) :
    (query_6220 st o q).2 ⊆ [IOEvent.query q] := by
  intro e he
  simp [mem_query_6220_trace he]

/-- `verify_params` only ever queries the five sweep parameters. -/
lemma verify_params_trace_sub (st : DevSt) (o : Oracle) :
    (verify_params st o).2 ⊆
      [IOEvent.query .dconStarQ, IOEvent.query .dconStopQ, IOEvent.query .dconStepQ,
       IOEvent.query .dconDeltaQ, IOEvent.query .dconDelayQ] := by
  unfold verify_params
  repeat' split
  all_goals simp only [List.append_subset]
  all_goals repeat' constructor
  all_goals exact (query_6220_trace_sub _ _ _).trans (by decide)

/-- When parameter verification fails, `arm_device` stops with the
verification trace alone. -/
lemma arm_device_eq_of_verify_false {st : DevSt} {o : Oracle}
    (h : (verify_params st o).1 = false) :
    arm_device st o = (false, (verify_params st o).2) := by
  simp [arm_device, h]

/-- When verification passes but the 2182A is not seen, `arm_device`
stops after the presence query. -/
lemma arm_device_eq_of_presence_false {st : DevSt} {o : Oracle}
    (h1 : (verify_params st o).1 = true) (h2 : (check_2182a_presence st o).1 = false) :
    arm_device st o = (false, (verify_params st o).2 ++ (check_2182a_presence st o).2) := by
  simp [arm_device, h1, h2]

/-- When only the interlock check fails, `arm_device` stops after the
interlock query. -/
lemma arm_device_eq_of_interlock_false {st : DevSt} {o : Oracle}
    (h1 : (verify_params st o).1 = true) (h2 : (check_2182a_presence st o).1 = true)
    (h3 : (check_interlock_status st o).1 = false) :
    arm_device st o = (false,
      (verify_params st o).2 ++ (check_2182a_presence st o).2 ++
        (check_interlock_status st o).2) := by
  simp [arm_device, h1, h2, h3]

/-- The five parameter queries `verify_params` may issue. -/
def verify_queries : List IOEvent :=
  [.query .dconStarQ, .query .dconStopQ, .query .dconStepQ,
   .query .dconDeltaQ, .query .dconDelayQ]

/-- Restatement of `verify_params_trace_sub` against `verify_queries`. -/
lemma verify_params_trace_sub_queries (st : DevSt) (o : Oracle) :
    (verify_params st o).2 ⊆ verify_queries :=
  verify_params_trace_sub st o

/-- The presence check only queries `SOUR:DELTA:NVPResent?`. -/
lemma check_2182a_presence_trace_sub (st : DevSt) (o : Oracle) :
    (check_2182a_presence st o).2 ⊆ [IOEvent.query .nvPresentQ] :=
  query_6220_trace_sub st o .nvPresentQ

/-- The interlock check only queries `OUTP:INT:TRIPped?`. -/
lemma check_interlock_status_trace_sub (st : DevSt) (o : Oracle) :
    (check_interlock_status st o).2 ⊆ [IOEvent.query .interlockQ] :=
  query_6220_trace_sub st o .interlockQ

/-- An event outside a covering list is outside every list it covers. -/
lemma not_mem_of_sub {l big : List IOEvent} {e : IOEvent}
    (hsub : l ⊆ big) (hni : e ∉ big) : e ∉ l :=
  fun he => hni (hsub he)

/-- Claim C1: for every in-range parameter set with `stop > start` and
a point count within capacity, `configure` returns
`total_points = ceil(round(|stop-start|/step, 6)) + 1` and
`estimated_time = total_points * delay`, and stores both. -/
theorem c1_configure_formula (st : DevSt) (o : Oracle) (start stop step delay delta : ℚ)
    (h1 : validate_param start (-(105 / 1000)) (105 / 1000) = true)
    (h2 : validate_param stop (-(105 / 1000)) (105 / 1000) = true)
    (h3 : validate_param step (1 / 10 ^ 12) (105 / 1000) = true)
    (h4 : validate_param delay (1 / 1000) (9999999 / 1000) = true)
    (h5 : validate_param delta (1 / 10 ^ 5) (105 / 1000) = true)
    (h6 : start < stop)
    (h7 : computed_points start stop step ≤ 65530) :
    (set_differential_conductance_params st o start stop step delay delta).2.2 =
      .ok (computed_points start stop step) ((computed_points start stop step : ℚ) * delay) ∧
    (set_differential_conductance_params st o start stop step delay delta).1.total_points =
      some (computed_points start stop step) ∧
    (set_differential_conductance_params st o start stop step delay delta).1.estimated_time =
      some ((computed_points start stop step : ℚ) * delay) := by
  simp only [set_differential_conductance_params, h1, h2, h3, h4, h5]
  simp [not_le.mpr h6, not_lt.mpr h7]

/-- Witness for C1: the spec's concrete instance
`configure(0, 0.01, 0.001, 0.002, 1e-5)` yields 11 points and an
estimated time of 0.022 s. -/
theorem c1_configure_formula_wit :
    (set_differential_conductance_params initSt (fun _ => none)
        0 (1 / 100) (1 / 1000) (1 / 500) (1 / 100000)).2.2 = .ok 11 (11 / 500) := by
  have h := c1_configure_formula initSt (fun _ => none) 0 (1 / 100) (1 / 1000) (1 / 500)
    (1 / 100000) (by decide) (by decide) (by decide) (by decide) (by decide)
    (by decide) (by decide)
  rw [h.1]
  decide

/-- Claim C5: when the computed point count exceeds 65530, `configure`
fails with the capacity error and issues no device write at all — in
particular none of the five sweep-parameter writes. -/
theorem c5_capacity_no_device_write (st : DevSt) (o : Oracle)
    (start stop step delay delta : ℚ)
    (h1 : validate_param start (-(105 / 1000)) (105 / 1000) = true)
    (h2 : validate_param stop (-(105 / 1000)) (105 / 1000) = true)
    (h3 : validate_param step (1 / 10 ^ 12) (105 / 1000) = true)
    (h4 : validate_param delay (1 / 1000) (9999999 / 1000) = true)
    (h5 : validate_param delta (1 / 10 ^ 5) (105 / 1000) = true)
    (h6 : start < stop)
    (h7 : computed_points start stop step > 65530) :
    (set_differential_conductance_params st o start stop step delay delta).2.1 = [] ∧
    (set_differential_conductance_params st o start stop step delay delta).2.2 =
      .err (.capacity (computed_points start stop step)) := by
  simp only [set_differential_conductance_params, h1, h2, h3, h4, h5]
  simp [not_le.mpr h6, h7]

/-- Witness for C5: a sweep of 0.105 A in 1 µA steps computes 105001
points, is rejected for capacity, and issues nothing. -/
theorem c5_capacity_no_device_write_wit :
    (set_differential_conductance_params initSt (fun _ => none)
        0 (21 / 200) (1 / 1000000) (1 / 500) (1 / 100000)).2.1 = [] ∧
    (set_differential_conductance_params initSt (fun _ => none)
        0 (21 / 200) (1 / 1000000) (1 / 500) (1 / 100000)).2.2 =
      .err (.capacity 105001) := by
  have h := c5_capacity_no_device_write initSt (fun _ => none) 0 (21 / 200) (1 / 1000000)
    (1 / 500) (1 / 100000) (by decide) (by decide) (by decide) (by decide) (by decide)
    (by decide) (by decide)
  refine ⟨h.1, ?_⟩
  rw [h.2]
  decide

/-- Counterexample for C8: a `configure` call that fails the capacity
check has already overwritten the stored `total_points`, so not all
stored plan fields are left unchanged by a failing call. -/
theorem c8_total_points_clobbered_cex :
    (set_differential_conductance_params stPlanned (fun _ => none)
        0 (21 / 200) (1 / 1000000) (1 / 500) (1 / 100000)).2.2 =
      .err (.capacity 105001) ∧
    ¬ (set_differential_conductance_params stPlanned (fun _ => none)
        0 (21 / 200) (1 / 1000000) (1 / 500) (1 / 100000)).1.total_points =
      stPlanned.total_points := by
  decide

set_option maxHeartbeats 1600000 in
/-- Claim C8 (amended): a failing `configure` issues no device command
and leaves `start`, `stop`, `step`, `delta`, `delay` and
`estimated_time` unchanged; `total_points` is also unchanged for every
range/order validation failure, but is overwritten with the newly
computed count when only the capacity check fails. -/
theorem c8_failed_configure_preserves_plan (st : DevSt) (o : Oracle)
    (start stop step delay delta : ℚ) (e : CfgErr)
    (h : (set_differential_conductance_params st o start stop step delay delta).2.2 =
      .err e) :
    (set_differential_conductance_params st o start stop step delay delta).2.1 = [] ∧
    (set_differential_conductance_params st o start stop step delay delta).1.start = st.start ∧
    (set_differential_conductance_params st o start stop step delay delta).1.stop = st.stop ∧
    (set_differential_conductance_params st o start stop step delay delta).1.step = st.step ∧
    (set_differential_conductance_params st o start stop step delay delta).1.delta = st.delta ∧
    (set_differential_conductance_params st o start stop step delay delta).1.delay = st.delay ∧
    (set_differential_conductance_params st o start stop step delay delta).1.estimated_time =
      st.estimated_time ∧
    (∀ f, e = .validation f →
      (set_differential_conductance_params st o start stop step delay delta).1.total_points =
        st.total_points) := by
  revert h
  unfold set_differential_conductance_params
  split_ifs <;> intro h
  all_goals try simp_all
  all_goals rcases lt_or_le 65530 (computed_points start stop step) with hcap | hcap
  all_goals first
    | (rw [if_pos hcap] at h ⊢
       simp_all
       intro f hf
       subst hf
       simp_all)
    | (rw [if_neg (not_lt.mpr hcap)] at h ⊢; simp_all)

/-- Witness for C8 (amended): an out-of-range start current is rejected
with nothing sent and the stored point count untouched. -/
theorem c8_failed_configure_preserves_plan_wit :
    (set_differential_conductance_params initSt (fun _ => none)
        1 0 (1 / 1000) (1 / 500) (1 / 100000)).2.1 = [] ∧
    (set_differential_conductance_params initSt (fun _ => none)
        1 0 (1 / 1000) (1 / 500) (1 / 100000)).1.total_points = initSt.total_points := by
  have h := c8_failed_configure_preserves_plan initSt (fun _ => none) 1 0 (1 / 1000)
    (1 / 500) (1 / 100000) (.validation .start) (by decide)
  exact ⟨h.1, h.2.2.2.2.2.2.2 .start rfl⟩

/-- Counterexample for C9: after `disconnect()`, a send does not fail
with a dedicated not-connected condition — the code's outcome is the
caught null-handle `AttributeError`, unlike the behaviour the
specification demands. -/
theorem c9_send_after_disconnect_cex :
    (send_command_to_6220 (disconnect { initSt with instrument := true }) .dconArm).1 =
      .caughtNullRef ∧
    ¬ (send_command_to_6220 (disconnect { initSt with instrument := true }) .dconArm).1 =
      (send_spec_behavior (disconnect { initSt with instrument := true }) .dconArm).1 := by
  decide

/-- Claim C9 (amended): after `disconnect()`, every send or query is a
caught null-handle failure that returns without crashing and puts
nothing on the wire — so no command or query is ever issued while the
connection handle is null. -/
theorem c9_no_traffic_after_disconnect (st : DevSt) (c : Cmd) (o : Oracle) (q : Qry) :
    send_command_to_6220 (disconnect st) c = (.caughtNullRef, []) ∧
    query_6220 (disconnect st) o q = (none, []) := by
  have hd : (disconnect st).instrument = false := by
    cases hi : st.instrument <;> simp [disconnect, hi]
  simp [send_command_to_6220, query_6220, hd]

/-- Claim C2: `arm_device` evaluates its preconditions in the fixed
order verification → 2182A presence → interlock; the first failing
check makes it fail, none of the later checks is queried, and
`SOUR:DCON:ARM` is never written — in particular a failed verification
means no arm command. -/
theorem c2_arm_precondition_order (st : DevSt) (o : Oracle) :
    ((verify_params st o).1 = false →
      (arm_device st o).1 = false ∧
      IOEvent.query Qry.nvPresentQ ∉ (arm_device st o).2 ∧
      IOEvent.query Qry.interlockQ ∉ (arm_device st o).2 ∧
      IOEvent.write Cmd.dconArm ∉ (arm_device st o).2) ∧
    ((verify_params st o).1 = true → (check_2182a_presence st o).1 = false →
      (arm_device st o).1 = false ∧
      IOEvent.query Qry.interlockQ ∉ (arm_device st o).2 ∧
      IOEvent.write Cmd.dconArm ∉ (arm_device st o).2) ∧
    ((verify_params st o).1 = true → (check_2182a_presence st o).1 = true →
      (check_interlock_status st o).1 = false →
      (arm_device st o).1 = false ∧
      IOEvent.write Cmd.dconArm ∉ (arm_device st o).2) := by
  refine ⟨fun hv => ?_, fun hv hp => ?_, fun hv hp hi => ?_⟩
  · rw [arm_device_eq_of_verify_false hv]
    exact ⟨rfl,
      not_mem_of_sub (verify_params_trace_sub_queries st o) (by decide),
      not_mem_of_sub (verify_params_trace_sub_queries st o) (by decide),
      not_mem_of_sub (verify_params_trace_sub_queries st o) (by decide)⟩
  · rw [arm_device_eq_of_presence_false hv hp]
    have hsub : (verify_params st o).2 ++ (check_2182a_presence st o).2 ⊆
        verify_queries ++ [IOEvent.query Qry.nvPresentQ] :=
      List.append_subset.mpr
        ⟨(verify_params_trace_sub_queries st o).trans (List.subset_append_left _ _),
         (check_2182a_presence_trace_sub st o).trans (List.subset_append_right _ _)⟩
    exact ⟨rfl, not_mem_of_sub hsub (by decide), not_mem_of_sub hsub (by decide)⟩
  · rw [arm_device_eq_of_interlock_false hv hp hi]
    have hsub : (verify_params st o).2 ++ (check_2182a_presence st o).2 ++
        (check_interlock_status st o).2 ⊆
        verify_queries ++ [IOEvent.query Qry.nvPresentQ] ++ [IOEvent.query Qry.interlockQ] :=
      List.append_subset.mpr
        ⟨List.append_subset.mpr
          ⟨((verify_params_trace_sub_queries st o).trans (List.subset_append_left _ _)).trans
              (List.subset_append_left _ _),
           ((check_2182a_presence_trace_sub st o).trans (List.subset_append_right _ _)).trans
              (List.subset_append_left _ _)⟩,
         (check_interlock_status_trace_sub st o).trans (List.subset_append_right _ _)⟩
    exact ⟨rfl, not_mem_of_sub hsub (by decide)⟩

/-- Witness for C2: with a dead transport every verification query
fails, `arm_device` rejects, and the arm command is never written. -/
theorem c2_arm_precondition_order_wit :
    (arm_device initSt (fun _ => none)).1 = false ∧
    IOEvent.write Cmd.dconArm ∉ (arm_device initSt (fun _ => none)).2 := by
  have h := (c2_arm_precondition_order initSt (fun _ => none)).1 (by decide)
  exact ⟨h.1, h.2.2.2⟩

/-- Claim C10: a transport failure or non-numeric response during any
of the five verification queries makes `verify_params` return `False`
(it never raises), indistinguishable from a genuine mismatch, and the
subsequent `arm_device` then fails as a parameter-verification
precondition failure — no presence query and no arm command. -/
theorem c10_query_failure_reads_as_mismatch (st : DevSt) (o : Oracle)
    (h : float_opt (query_6220 st o .dconStarQ).1 = none ∨
         float_opt (query_6220 st o .dconStopQ).1 = none ∨
         float_opt (query_6220 st o .dconStepQ).1 = none ∨
         float_opt (query_6220 st o .dconDeltaQ).1 = none ∨
         float_opt (query_6220 st o .dconDelayQ).1 = none) :
    (verify_params st o).1 = false ∧
    (arm_device st o).1 = false ∧
    IOEvent.query Qry.nvPresentQ ∉ (arm_device st o).2 ∧
    IOEvent.write Cmd.dconArm ∉ (arm_device st o).2 := by
  have hv : (verify_params st o).1 = false := by
    unfold verify_params
    rcases h with h | h | h | h | h
    all_goals repeat' split
    all_goals simp_all
  refine ⟨hv, ?_, ?_, ?_⟩
  all_goals rw [arm_device_eq_of_verify_false hv]
  all_goals exact not_mem_of_sub (verify_params_trace_sub_queries st o) (by decide)

/-- Witness for C10: a non-numeric step response makes verification and
arming fail without the presence query being issued. -/
theorem c10_query_failure_reads_as_mismatch_wit :
    (verify_params stGood oBadStep).1 = false ∧
    (arm_device stGood oBadStep).1 = false ∧
    IOEvent.query Qry.nvPresentQ ∉ (arm_device stGood oBadStep).2 := by
  have h := c10_query_failure_reads_as_mismatch stGood oBadStep
    (Or.inr (Or.inr (Or.inl (by decide))))
  exact ⟨h.1, h.2.1, h.2.2.1⟩

/-- Claim C7: a second arm request while one is under way is rejected
with "already in progress" and contacts the device in no way. -/
theorem c7_second_arm_rejected (st : DevSt) (o : Oracle)
    (h : st.under_arming = true) :
    qt_arm_device st o = (st, [], [.arming false .alreadyInProgress]) := by
  simp [qt_arm_device, h]

/-- Witness for C7: the mid-arming session rejects a new arm request
without issuing anything even on a fully healthy device. -/
theorem c7_second_arm_rejected_wit :
    qt_arm_device armingSt oGood = (armingSt, [], [.arming false .alreadyInProgress]) :=
  c7_second_arm_rejected armingSt oGood (by decide)

/-- Claim C3: a successful arm call enters the ARMING phase; polling
the responses "0","0","1" at the 1 s tick reaches ARMED after two
elapsed ticks, with exactly three status queries; polling "0" forever
hits the 20 s default timeout, emits the timeout failure, and stops
polling — exactly twenty status queries are issued no matter how many
further ticks were scheduled. -/
theorem c3_arming_poll_scenarios :
    stGood.under_arming = false ∧
    stGood.is_armed = false ∧
    (qt_arm_device stGood oGood).1.under_arming = true ∧
    (qt_arm_device stGood oGood).1.is_armed = false ∧
    (qt_arm_device stGood oGood).2.2 = [Sig.arming true .initiated] ∧
    (run_arming_monitor (qt_arm_device stGood oGood).1
        [some "0", some "0", some "1"]).1.is_armed = true ∧
    (run_arming_monitor (qt_arm_device stGood oGood).1
        [some "0", some "0", some "1"]).1.under_arming = false ∧
    (run_arming_monitor (qt_arm_device stGood oGood).1
        [some "0", some "0", some "1"]).1.timer_active = false ∧
    (run_arming_monitor (qt_arm_device stGood oGood).1
        [some "0", some "0", some "1"]).1.elapsed_time = 2 ∧
    (run_arming_monitor (qt_arm_device stGood oGood).1
        [some "0", some "0", some "1"]).2.1 =
      List.replicate 3 (IOEvent.query Qry.armQ) ∧
    (run_arming_monitor (qt_arm_device stGood oGood).1
        [some "0", some "0", some "1"]).2.2 =
      [Sig.arming true .deviceArmed, Sig.armStatus true] ∧
    (run_arming_monitor (qt_arm_device stGood oGood).1
        (List.replicate 25 (some "0"))).1.is_armed = false ∧
    (run_arming_monitor (qt_arm_device stGood oGood).1
        (List.replicate 25 (some "0"))).1.under_arming = false ∧
    (run_arming_monitor (qt_arm_device stGood oGood).1
        (List.replicate 25 (some "0"))).1.timer_active = false ∧
    (run_arming_monitor (qt_arm_device stGood oGood).1
        (List.replicate 25 (some "0"))).2.1 =
      List.replicate 20 (IOEvent.query Qry.armQ) ∧
    (run_arming_monitor (qt_arm_device stGood oGood).1
        (List.replicate 25 (some "0"))).2.2 = [Sig.arming false .timedOut] := by
  decide

/-- Counterexample for C6: after the unexpected poll response "X" (for
which the status helper yields no verdict) the monitor does not stop —
a further `SOUR:DCON:ARM?` query is issued on the next tick and the
session even completes as armed. -/
theorem c6_unexpected_response_cex :
    (check_arm_status armingSt (some "X")).1 = none ∧
    (run_arming_monitor armingSt [some "X", some "1"]).2.1 =
      [IOEvent.query Qry.armQ, IOEvent.query Qry.armQ] ∧
    (run_arming_monitor armingSt [some "X", some "1"]).1.is_armed = true := by
  decide

/-- Claim C6 (amended): an unexpected poll response (anything not
decoding to "1") is treated exactly like the not-armed response "0":
the tick accrues elapsed time and polling continues until a "1" or the
timeout — it does not fail fast. -/
theorem c6_unexpected_response_like_unarmed (st : DevSt) (raw : Option String)
    (h : ¬ decode_response raw = some "1") :
    check_arming_progress st raw = check_arming_progress st (some "0") := by
  have h0 : decode_response (some "0") = some "0" := by decide
  unfold check_arming_progress check_arm_status
  cases hi : st.instrument
  · simp [hi]
  · simp [hi, h0, h]

/-- Witness for C6 (amended): ticking on "X" is the same transition as
ticking on "0". -/
theorem c6_unexpected_response_like_unarmed_wit :
    check_arming_progress armingSt (some "X") =
      check_arming_progress armingSt (some "0") :=
  c6_unexpected_response_like_unarmed armingSt (some "X") (by decide)

/-- Each chunk contributes to both sequences or to neither, so the two
sequences always have equal length. -/
lemma parse_chunks_length (l : List (List Char)) :
    (parse_chunks l).1.length = (parse_chunks l).2.length := by
  induction l with
  | nil => rfl
  | cons e rest ih =>
    unfold parse_chunks
    split
    · simpa using ih
    · exact ih

/-- Claim C4: the example payload parses to currents `[1e-3, 3e-3]` and
voltages `[2e-3, 4e-3]`; parsing always returns sequences of equal
length; and a nonempty payload with zero valid chunks is reported as
the empty-data parse failure. -/
theorem c4_retrieve_parsing :
    (∀ s : String, (parse_iv_data s).1.length = (parse_iv_data s).2.length) ∧
    parse_iv_data "1.0000E-03ADC,2.0000E-03VDC#3.0000E-03ADC,4.0000E-03VDC" =
      ([1 / 1000, 3 / 1000], [2 / 1000, 4 / 1000]) ∧
    (∀ s : String, ¬ s = "" → parse_iv_data s = ([], []) →
      retrieve_iv_data (some s) = .errParseFailed) := by
  refine ⟨fun s => parse_chunks_length _, by decide, fun s hs hp => ?_⟩
  simp [retrieve_iv_data, hs, hp]

/-- Witness for C4: a payload with no valid reading chunk yields the
empty-data failure. -/
theorem c4_retrieve_parsing_wit :
    retrieve_iv_data (some "no readings here") = .errParseFailed :=
  c4_retrieve_parsing.2.2 "no readings here" (by decide) (by decide)

end ClaimProofs

end K6220
